import Mathlib

/-!
Verification of the EC2-instance operator's reconcile loop
(`internal/controller/ec2instance_controller.go`).

The reconcile function is embedded shallowly: the Kubernetes object is a
record of spec, status, deletion marker and finalizer list; the cloud
provider calls (`checkEC2InstanceExists`, `createEc2Instance`,
`deleteEc2Instance`) and the two store writes (`r.Update`,
`r.Status().Update`) are supplied as an explicit environment describing
what each external call would return during this invocation.  The
reconcile's output records the controller-runtime result, whether an
error was returned, the sequence of successfully persisted writes, and
which provider operations were invoked.
-/

/-- The finalizer token the controller attaches
(`"ec2instance.compute.cloud.com"` in the source). -/
def finalizerToken : String := "ec2instance.compute.cloud.com"

/-- Spec fields of the `Ec2Instance` custom resource (user intent,
from the CRD usage in the repository: amiId, region, keyPair,
instanceType, subnet, tags). -/
structure Ec2InstanceSpec where
  amiId : String
  region : String
  keyPair : String
  instanceType : String
  subnet : String
  tags : List (String × String)
deriving DecidableEq, Repr

/-- Status sub-object written by the controller:
`InstanceID`, `State`, `PublicIP`, `PrivateIP`, `PublicDNS`, `PrivateDNS`. -/
structure Ec2InstanceStatus where
  instanceID : String
  state : String
  publicIP : String
  privateIP : String
  publicDNS : String
  privateDNS : String
deriving DecidableEq, Repr

/-- The in-store object: spec, status, the deletion marker
(`DeletionTimestamp.IsZero()` from the source, kept as a Boolean), and
the finalizer list. -/
structure Ec2Instance where
  spec : Ec2InstanceSpec
  status : Ec2InstanceStatus
  deletionTimestampIsZero : Bool
  finalizers : List String
deriving DecidableEq, Repr

/-- The record returned by `createEc2Instance` on success
(`createdInstanceInfo` in the source). -/
structure InstanceInfo where
  instanceID : String
  state : String
  publicIP : String
  privateIP : String
  publicDNS : String
  privateDNS : String
deriving DecidableEq, Repr

/-- Outcome of the initial `r.Get` in the reconcile: the object was
found, it was not found (`errors.IsNotFound`), or a different get error
occurred. -/
inductive GetResult where
  | found (obj : Ec2Instance)
  | notFound
  | getError
deriving DecidableEq, Repr

/-- The environment of one reconcile invocation: what every external
call would return if made.  `describe` models
`checkEC2InstanceExists` returning `(exists, awsInstance.State.Name)`
or an error; `create` models `createEc2Instance`; `terminate` models
`deleteEc2Instance`; `updateOk` and `statusUpdateOk` say whether the
(at most one) `r.Update` and `r.Status().Update` calls would succeed. -/
structure Env where
  get : GetResult
  describe : Except Unit (Bool × String)
  create : Except Unit InstanceInfo
  terminate : Except Unit Unit
  updateOk : Bool
  statusUpdateOk : Bool

/-- The `ctrl.Result` value: `Requeue` and `RequeueAfter` (in seconds,
`0` meaning unset). -/
structure CtrlResult where
  requeue : Bool
  requeueAfterSeconds : Nat
deriving DecidableEq, Repr

/-- A successfully persisted store write: `r.Update` (object and
markers) or `r.Status().Update` (status sub-object only). -/
inductive Write where
  | update (obj : Ec2Instance)
  | statusUpdate (obj : Ec2Instance)
deriving DecidableEq, Repr

/-- The object carried by a persisted write. -/
def Write.obj : Write → Ec2Instance
  | .update o => o
  | .statusUpdate o => o

/-- Output of one reconcile invocation: the returned `ctrl.Result`,
whether a non-nil error was returned (controller-runtime then retries
with backoff), the successfully persisted writes in order, and which
provider operations were called. -/
structure ReconcileOut where
  result : CtrlResult
  hasError : Bool
  writes : List Write
  createCalled : Bool
  describeCalled : Bool
  terminateCalled : Bool
deriving DecidableEq, Repr

/-- `controllerutil.RemoveFinalizer`: drops every occurrence of the
token from the finalizer list. -/
def removeFinalizer (fs : List String) (tok : String) : List String :=
  fs.filter (fun f => f ≠ tok)

/-- Shallow embedding of
`Ec2InstanceReconciler.Reconcile` from
`internal/controller/ec2instance_controller.go`, following the source
top to bottom: get; deletion branch (terminate, remove finalizer);
non-empty `Status.InstanceID` branch (describe; drift reset; state
sync; steady-state requeue after 30s); otherwise append finalizer,
persist, create, persist status, requeue after 1s. -/
def Reconcile (env : Env) : ReconcileOut :=
  match env.get with
  | .getError =>
      ⟨⟨false, 0⟩, true, [], false, false, false⟩
  | .notFound =>
      ⟨⟨false, 0⟩, false, [], false, false, false⟩
  | .found obj =>
    if ¬ obj.deletionTimestampIsZero then
      match env.terminate with
      | .error _ => ⟨⟨true, 0⟩, true, [], false, false, true⟩
      | .ok _ =>
        let obj' := { obj with
          finalizers := removeFinalizer obj.finalizers finalizerToken }
        if env.updateOk then
          ⟨⟨false, 0⟩, false, [.update obj'], false, false, true⟩
        else
          ⟨⟨true, 0⟩, true, [], false, false, true⟩
    else if obj.status.instanceID ≠ "" then
      match env.describe with
      | .error _ => ⟨⟨false, 0⟩, true, [], false, true, false⟩
      | .ok (ex, stName) =>
        if ¬ ex ∨ stName = "terminated" then
          let obj' := { obj with status :=
            { obj.status with instanceID := "", state := "Terminated" } }
          if env.statusUpdateOk then
            ⟨⟨true, 0⟩, false, [.statusUpdate obj'], false, true, false⟩
          else
            ⟨⟨false, 0⟩, true, [], false, true, false⟩
        else if obj.status.state ≠ stName then
          let obj' := { obj with status := { obj.status with state := stName } }
          if env.statusUpdateOk then
            ⟨⟨false, 30⟩, false, [.statusUpdate obj'], false, true, false⟩
          else
            ⟨⟨false, 0⟩, true, [], false, true, false⟩
        else
          ⟨⟨false, 30⟩, false, [], false, true, false⟩
    else
      let obj1 := { obj with finalizers := obj.finalizers ++ [finalizerToken] }
      if ¬ env.updateOk then
        ⟨⟨true, 0⟩, true, [], false, false, false⟩
      else
        match env.create with
        | .error _ => ⟨⟨false, 0⟩, true, [.update obj1], true, false, false⟩
        | .ok info =>
          let obj2 := { obj1 with status :=
            ⟨info.instanceID, info.state, info.publicIP, info.privateIP,
             info.publicDNS, info.privateDNS⟩ }
          if env.statusUpdateOk then
            ⟨⟨false, 1⟩, false, [.update obj1, .statusUpdate obj2], true, false, false⟩
          else
            ⟨⟨false, 0⟩, true, [.update obj1], true, false, false⟩

/-! ## Concrete fixtures -/

/-- A sample user spec (values in the style of the repository's example
manifest). -/
def specA : Ec2InstanceSpec :=
  ⟨"ami-019715e023234", "ap-south-1", "myaws_keypair", "t2.large",
   "subnet-0d17e7ca2343455", [("Name", "my-demo-server")]⟩

/-- A status sub-object with resourceId `"i-123"` and the given state. -/
def statusWithId (st : String) : Ec2InstanceStatus :=
  ⟨"i-123", st, "3.7.1.2", "10.0.0.5", "ec2-pub.example", "ip-priv.example"⟩

/-- Object with resourceId `"i-123"`, observedState `"running"`,
finalizer attached, deletion not requested. -/
def objRunning : Ec2Instance := ⟨specA, statusWithId "running", true, [finalizerToken]⟩

/-- Object with resourceId `"i-123"`, observedState `"pending"`,
finalizer attached, deletion not requested. -/
def objPending : Ec2Instance := ⟨specA, statusWithId "pending", true, [finalizerToken]⟩

/-- A fresh object: empty status, no finalizers, deletion not requested. -/
def freshObj : Ec2Instance := ⟨specA, ⟨"", "", "", "", "", ""⟩, true, []⟩

/-- A sample creation result. -/
def infoA : InstanceInfo :=
  ⟨"i-123", "pending", "3.7.1.2", "10.0.0.5", "ec2-pub.example", "ip-priv.example"⟩

/-! ## C1: drift reset -/

/-- Environment for the drift scenario: stored resourceId `"i-123"`,
provider reports not-found; status write succeeds.  The create and
terminate oracles are set to errors to show they are never consulted. -/
def envC1 : Env := ⟨.found objRunning, .ok (false, ""), .error (), .error (), true, true⟩

/-- Claim C1 counterexample: on the drift path the code persists
`Status.State = "Terminated"` (capitalized), not `"terminated"` as the
claim states, so the claim fails at this concrete input. -/
theorem C1_counterexample :
    (Reconcile envC1).writes.map (fun w => (Write.obj w).status.state) = ["Terminated"] ∧
    ¬ (Reconcile envC1).writes.map (fun w => (Write.obj w).status.state) = ["terminated"] := by
  decide

/-- Claim C1 (amended): for every object whose status resourceId is
non-empty and whose deletion is not requested, if the provider reports
the resource as not existing or in state `"terminated"`, the reconcile
sets resourceId to `""` and observedState to `"Terminated"`
(capitalized), persists the status, and returns a requeue-immediately
directive with no error. -/
theorem C1_drift_reset (env : Env) (obj : Ec2Instance) (ex : Bool) (st : String)
    (hget : env.get = .found obj)
    (hdel : obj.deletionTimestampIsZero = true)
    (hid : obj.status.instanceID ≠ "")
    (hdesc : env.describe = .ok (ex, st))
    (hdrift : ex = false ∨ st = "terminated")
    (hst : env.statusUpdateOk = true) :
    Reconcile env = ⟨⟨true, 0⟩, false,
      [.statusUpdate { obj with status :=
        { obj.status with instanceID := "", state := "Terminated" } }],
      false, true, false⟩ := by
  rcases hdrift with h | h <;>
    simp [Reconcile, hget, hdel, hid, hdesc, hst, h]

/-- Witness for C1_drift_reset at the concrete drift environment. -/
theorem C1_drift_reset_witness :
    Reconcile envC1 = ⟨⟨true, 0⟩, false,
      [.statusUpdate { objRunning with status :=
        { objRunning.status with instanceID := "", state := "Terminated" } }],
      false, true, false⟩ :=
  C1_drift_reset envC1 objRunning false "" rfl rfl (by decide) rfl (Or.inl rfl) rfl

/-! ## C2: fresh-object provisioning happens in one invocation -/

/-- Environment for a fresh object: empty status, no deletion; both
store writes succeed and create returns `infoA`. -/
def envC2 : Env := ⟨.found freshObj, .error (), .ok infoA, .error (), true, true⟩

/-- Claim C2 counterexample: on a fresh object the very first reconcile
invocation already calls create (and persists two writes: the finalizer
attach and the status), contradicting the claim that the first
invocation only attaches the marker and create happens in a second,
separate invocation. -/
theorem C2_counterexample :
    (Reconcile envC2).createCalled = true ∧
    (Reconcile envC2).writes.length = 2 := by
  decide

/-- Claim C2 (amended): for every fresh object (empty resourceId, no
deletion requested), a single reconcile invocation attaches the
cleanup-obligation marker and persists it, then calls create in that
same invocation, persists the status (resourceId, state, addresses),
and requeues after ~1 time unit. -/
theorem C2_fresh_single_pass (env : Env) (obj : Ec2Instance) (info : InstanceInfo)
    (hget : env.get = .found obj)
    (hdel : obj.deletionTimestampIsZero = true)
    (hid : obj.status.instanceID = "")
    (hupd : env.updateOk = true)
    (hcr : env.create = .ok info)
    (hst : env.statusUpdateOk = true) :
    Reconcile env = ⟨⟨false, 1⟩, false,
      [.update { obj with finalizers := obj.finalizers ++ [finalizerToken] },
       .statusUpdate { obj with
         finalizers := obj.finalizers ++ [finalizerToken],
         status := ⟨info.instanceID, info.state, info.publicIP, info.privateIP,
                    info.publicDNS, info.privateDNS⟩ }],
      true, false, false⟩ := by
  simp [Reconcile, hget, hdel, hid, hupd, hcr, hst]

/-- Witness for C2_fresh_single_pass at the concrete fresh-object
environment. -/
theorem C2_fresh_single_pass_witness :
    Reconcile envC2 = ⟨⟨false, 1⟩, false,
      [.update { freshObj with finalizers := freshObj.finalizers ++ [finalizerToken] },
       .statusUpdate { freshObj with
         finalizers := freshObj.finalizers ++ [finalizerToken],
         status := ⟨infoA.instanceID, infoA.state, infoA.publicIP, infoA.privateIP,
                    infoA.publicDNS, infoA.privateDNS⟩ }],
      true, false, false⟩ :=
  C2_fresh_single_pass envC2 freshObj infoA rfl rfl rfl rfl rfl rfl

/-! ## C3: state sync requeue interval -/

/-- Environment for the state-sync scenario: stored observedState
`"pending"`, provider reports `"running"`; status write succeeds. -/
def envC3 : Env := ⟨.found objPending, .ok (true, "running"), .error (), .error (), true, true⟩

/-- Claim C3 counterexample: after overwriting observedState the code
returns `RequeueAfter: 30s` — the same steady-state interval — not a
shorter delay distinct from it, so the claim fails at this concrete
input. -/
theorem C3_counterexample :
    (Reconcile envC3).writes.map (fun w => (Write.obj w).status.state) = ["running"] ∧
    (Reconcile envC3).result = ⟨false, 30⟩ := by
  decide

/-- Claim C3 (amended): for every object with non-empty resourceId and
no deletion requested, when describe succeeds, reports the resource as
existing in a non-terminated state, and the reported state differs
from the stored observedState, the reconcile overwrites observedState
with the provider's reported state, persists the status, and returns a
requeue after the same ~30-time-unit steady-state interval (not a
shorter delay). -/
theorem C3_state_sync (env : Env) (obj : Ec2Instance) (st : String)
    (hget : env.get = .found obj)
    (hdel : obj.deletionTimestampIsZero = true)
    (hid : obj.status.instanceID ≠ "")
    (hdesc : env.describe = .ok (true, st))
    (hterm : st ≠ "terminated")
    (hne : obj.status.state ≠ st)
    (hst : env.statusUpdateOk = true) :
    Reconcile env = ⟨⟨false, 30⟩, false,
      [.statusUpdate { obj with status := { obj.status with state := st } }],
      false, true, false⟩ := by
  simp [Reconcile, hget, hdel, hid, hdesc, hterm, hne, hst]

/-- Witness for C3_state_sync at the concrete sync environment. -/
theorem C3_state_sync_witness :
    Reconcile envC3 = ⟨⟨false, 30⟩, false,
      [.statusUpdate { objPending with status :=
        { objPending.status with state := "running" } }],
      false, true, false⟩ :=
  C3_state_sync envC3 objPending "running" rfl rfl (by decide) rfl (by decide)
    (by decide) rfl

/-! ## C4: obligation marker persisted before create -/

/-- Claim C4: in the Provisioning branch, create is called only after
the finalizer-attaching update has been persisted (it is then the first
persisted write), and if that marker-persisting update fails the
reconcile returns a retryable failure without calling create and
without any persisted write. -/
theorem C4_marker_before_create (env : Env) (obj : Ec2Instance)
    (hget : env.get = .found obj)
    (hdel : obj.deletionTimestampIsZero = true)
    (hid : obj.status.instanceID = "") :
    (env.updateOk = false →
      Reconcile env = ⟨⟨true, 0⟩, true, [], false, false, false⟩) ∧
    ((Reconcile env).createCalled = true →
      (Reconcile env).writes.head? =
        some (.update { obj with finalizers := obj.finalizers ++ [finalizerToken] })) := by
  constructor
  · intro h
    simp [Reconcile, hget, hdel, hid, h]
  · intro h
    by_cases hu : env.updateOk
    · cases hc : env.create with
      | error e => simp [Reconcile, hget, hdel, hid, hu, hc]
      | ok info =>
        by_cases hs : env.statusUpdateOk <;>
          simp [Reconcile, hget, hdel, hid, hu, hc, hs]
    · exfalso
      simp [Reconcile, hget, hdel, hid, hu] at h

/-- Environment where the finalizer-attaching update fails on a fresh
object. -/
def envC4 : Env := ⟨.found freshObj, .error (), .ok infoA, .error (), false, true⟩

/-- Witness for C4_marker_before_create at the concrete
failing-marker-write environment. -/
theorem C4_marker_before_create_witness :
    (envC4.updateOk = false →
      Reconcile envC4 = ⟨⟨true, 0⟩, true, [], false, false, false⟩) ∧
    ((Reconcile envC4).createCalled = true →
      (Reconcile envC4).writes.head? =
        some (.update { freshObj with
          finalizers := freshObj.finalizers ++ [finalizerToken] })) :=
  C4_marker_before_create envC4 freshObj rfl rfl rfl

/-! ## C5: create guarded by empty resourceId and no deletion -/

/-- Claim C5: whenever a reconcile invocation calls create, the object
was found with an empty status resourceId and deletion not requested;
in particular no invocation with a non-empty resourceId calls create. -/
theorem C5_create_only_when_empty (env : Env) :
    (Reconcile env).createCalled = true →
    ∃ obj, env.get = .found obj ∧ obj.status.instanceID = "" ∧
      obj.deletionTimestampIsZero = true := by
  intro h
  cases hg : env.get with
  | getError => simp [Reconcile, hg] at h
  | notFound => simp [Reconcile, hg] at h
  | found obj =>
    cases hdel : obj.deletionTimestampIsZero with
    | true =>
      by_cases hid : obj.status.instanceID = ""
      · exact ⟨obj, rfl, hid, hdel⟩
      · exfalso
        cases hdesc : env.describe with
        | error e => simp [Reconcile, hg, hdel, hid, hdesc] at h
        | ok p =>
          obtain ⟨ex, st⟩ := p
          cases ex <;> by_cases hterm : st = "terminated" <;>
            by_cases hne : obj.status.state = st <;>
            by_cases hs : env.statusUpdateOk <;>
            simp [Reconcile, hg, hdel, hid, hdesc, hterm, hne, hs] at h
    | false =>
      exfalso
      cases ht : env.terminate with
      | error e => simp [Reconcile, hg, hdel, ht] at h
      | ok u =>
        by_cases hu : env.updateOk <;> simp [Reconcile, hg, hdel, ht, hu] at h

/-- Witness for C5_create_only_when_empty at the concrete fresh-object
environment, where create is indeed called. -/
theorem C5_create_only_when_empty_witness :
    ∃ obj, envC2.get = .found obj ∧ obj.status.instanceID = "" ∧
      obj.deletionTimestampIsZero = true :=
  C5_create_only_when_empty envC2 (by decide)

/-! ## C6: termination failure keeps the finalizer -/

/-- Object whose deletion has been requested while holding resourceId
`"i-123"` and the finalizer. -/
def objDeleting : Ec2Instance := ⟨specA, statusWithId "running", false, [finalizerToken]⟩

/-- Environment for the deletion scenario where terminate fails. -/
def envC6 : Env := ⟨.found objDeleting, .error (), .error (), .error (), true, true⟩

/-- Claim C6: for every object whose deletion has been requested, if
the terminate call fails the reconcile returns an error together with
`Requeue: true` (retry with backoff) and persists no write at all — in
particular the finalizer set in the store is left unchanged. -/
theorem C6_terminate_failure (env : Env) (obj : Ec2Instance)
    (hget : env.get = .found obj)
    (hdel : obj.deletionTimestampIsZero = false)
    (hterm : env.terminate = .error ()) :
    Reconcile env = ⟨⟨true, 0⟩, true, [], false, false, true⟩ := by
  simp [Reconcile, hget, hdel, hterm]

/-- Witness for C6_terminate_failure at the concrete
failing-terminate environment. -/
theorem C6_terminate_failure_witness :
    Reconcile envC6 = ⟨⟨true, 0⟩, true, [], false, false, true⟩ :=
  C6_terminate_failure envC6 objDeleting rfl rfl rfl

/-! ## C7: creation failure writes no status fields -/

/-- Environment for the provisioning scenario where create fails (the
finalizer-attaching update itself succeeds). -/
def envC7 : Env := ⟨.found freshObj, .error (), .error (), .error (), true, true⟩

/-- Claim C7: in Provisioning, if the create call fails the reconcile
returns a retryable failure, the only persisted write is the finalizer
attach, and every persisted write carries the pre-invocation status
unchanged (resourceId still empty, observedState and addresses
untouched). -/
theorem C7_create_failure (env : Env) (obj : Ec2Instance)
    (hget : env.get = .found obj)
    (hdel : obj.deletionTimestampIsZero = true)
    (hid : obj.status.instanceID = "")
    (hupd : env.updateOk = true)
    (hcr : env.create = .error ()) :
    Reconcile env = ⟨⟨false, 0⟩, true,
      [.update { obj with finalizers := obj.finalizers ++ [finalizerToken] }],
      true, false, false⟩ ∧
    ∀ w ∈ (Reconcile env).writes, (Write.obj w).status = obj.status := by
  have hmain : Reconcile env = ⟨⟨false, 0⟩, true,
      [.update { obj with finalizers := obj.finalizers ++ [finalizerToken] }],
      true, false, false⟩ := by
    simp [Reconcile, hget, hdel, hid, hupd, hcr]
  refine ⟨hmain, ?_⟩
  rw [hmain]
  intro w hw
  simp only [List.mem_singleton] at hw
  subst hw
  rfl

/-- Witness for C7_create_failure at the concrete failing-create
environment. -/
theorem C7_create_failure_witness :
    (Reconcile envC7 = ⟨⟨false, 0⟩, true,
      [.update { freshObj with finalizers := freshObj.finalizers ++ [finalizerToken] }],
      true, false, false⟩ ∧
    ∀ w ∈ (Reconcile envC7).writes, (Write.obj w).status = freshObj.status) :=
  C7_create_failure envC7 freshObj rfl rfl rfl rfl rfl

/-! ## C8: steady state performs no write -/

/-- Environment for the steady-state scenario: stored observedState
`"running"` and the provider also reports `"running"`. -/
def envC8 : Env := ⟨.found objRunning, .ok (true, "running"), .error (), .error (), true, true⟩

/-- Claim C8: for every object with non-empty resourceId, no deletion
requested, and a provider report equal to the stored observedState,
the reconcile persists no write and returns a requeue after the
30-time-unit steady-state interval with no error.  Since no write
occurs, the object and provider state are unchanged, so a second
invocation of the (deterministic) reconcile in the same environment is
the very same value and again persists no write. -/
theorem C8_steady_state_no_write (env : Env) (obj : Ec2Instance) (st : String)
    (hget : env.get = .found obj)
    (hdel : obj.deletionTimestampIsZero = true)
    (hid : obj.status.instanceID ≠ "")
    (hdesc : env.describe = .ok (true, st))
    (hterm : st ≠ "terminated")
    (heq : obj.status.state = st) :
    Reconcile env = ⟨⟨false, 30⟩, false, [], false, true, false⟩ := by
  simp [Reconcile, hget, hdel, hid, hdesc, hterm, heq]

/-- Witness for C8_steady_state_no_write at the concrete steady-state
environment. -/
theorem C8_steady_state_no_write_witness :
    Reconcile envC8 = ⟨⟨false, 30⟩, false, [], false, true, false⟩ :=
  C8_steady_state_no_write envC8 objRunning "running" rfl rfl (by decide) rfl
    (by decide) rfl

/-! ## C9: the spec is never mutated -/

/-- Claim C9: on every path of the reconcile, every persisted write
carries the object's spec unchanged — the reconcile never mutates the
spec fields (amiId, region, keyPair, instanceType, subnet, tags). -/
theorem C9_spec_never_mutated (env : Env) (obj : Ec2Instance)
    (hget : env.get = .found obj) :
    ∀ w ∈ (Reconcile env).writes, (Write.obj w).spec = obj.spec := by
  intro w hw
  cases hdel : obj.deletionTimestampIsZero with
  | false =>
    cases ht : env.terminate with
    | error e => simp [Reconcile, hget, hdel, ht] at hw
    | ok u =>
      by_cases hu : env.updateOk <;>
        simp [Reconcile, hget, hdel, ht, hu] at hw
      subst hw; rfl
  | true =>
    by_cases hid : obj.status.instanceID = ""
    · by_cases hu : env.updateOk
      · cases hc : env.create with
        | error e =>
          simp [Reconcile, hget, hdel, hid, hu, hc] at hw
          subst hw; rfl
        | ok info =>
          by_cases hs : env.statusUpdateOk <;>
            simp [Reconcile, hget, hdel, hid, hu, hc, hs] at hw
          · rcases hw with hw | hw <;> subst hw <;> rfl
          · subst hw; rfl
      · simp [Reconcile, hget, hdel, hid, hu] at hw
    · cases hdesc : env.describe with
      | error e => simp [Reconcile, hget, hdel, hid, hdesc] at hw
      | ok p =>
        obtain ⟨ex, st⟩ := p
        cases ex <;> by_cases hterm : st = "terminated" <;>
          by_cases hne : obj.status.state = st <;>
          by_cases hs : env.statusUpdateOk <;>
          simp [Reconcile, hget, hdel, hid, hdesc, hterm, hne, hs] at hw <;>
          (subst hw; rfl)

/-- Witness for C9_spec_never_mutated: the finalizer-attaching write of
the fresh-object environment carries the spec unchanged. -/
theorem C9_spec_never_mutated_witness :
    (Write.obj (Write.update { freshObj with finalizers := [finalizerToken] })).spec
      = freshObj.spec :=
  C9_spec_never_mutated envC2 freshObj rfl
    (Write.update { freshObj with finalizers := [finalizerToken] }) (by decide)

/-! ## C10: duplicate finalizer on re-entry into Provisioning -/

/-- Object that re-enters Provisioning after a drift reset: empty
resourceId but the finalizer token already attached. -/
def objDup : Ec2Instance :=
  ⟨specA, ⟨"", "Terminated", "", "", "", ""⟩, true, [finalizerToken]⟩

/-- Environment for re-entering Provisioning with the token already
attached. -/
def envC10 : Env := ⟨.found objDup, .error (), .ok infoA, .error (), true, true⟩

/-- Claim C10: the Provisioning branch appends the finalizer token
unconditionally, so when the object already carries the token, the
persisted finalizer-attaching write contains the token at least
twice. -/
theorem C10_duplicate_finalizer (env : Env) (obj : Ec2Instance)
    (hget : env.get = .found obj)
    (hdel : obj.deletionTimestampIsZero = true)
    (hid : obj.status.instanceID = "")
    (hupd : env.updateOk = true)
    (hmem : finalizerToken ∈ obj.finalizers) :
    (Reconcile env).writes.head? =
      some (.update { obj with finalizers := obj.finalizers ++ [finalizerToken] }) ∧
    2 ≤ (obj.finalizers ++ [finalizerToken]).count finalizerToken := by
  constructor
  · cases hc : env.create with
    | error e => simp [Reconcile, hget, hdel, hid, hupd, hc]
    | ok info =>
      by_cases hs : env.statusUpdateOk <;>
        simp [Reconcile, hget, hdel, hid, hupd, hc, hs]
  · have h1 : 1 ≤ obj.finalizers.count finalizerToken :=
      List.one_le_count_iff.mpr hmem
    have h2 : (obj.finalizers ++ [finalizerToken]).count finalizerToken
        = obj.finalizers.count finalizerToken + 1 := by
      simp [List.count_append, List.count_singleton]
    omega

/-- Witness for C10_duplicate_finalizer at the concrete re-entry
environment. -/
theorem C10_duplicate_finalizer_witness :
    ((Reconcile envC10).writes.head? =
      some (.update { objDup with finalizers := objDup.finalizers ++ [finalizerToken] }) ∧
    2 ≤ (objDup.finalizers ++ [finalizerToken]).count finalizerToken) :=
  C10_duplicate_finalizer envC10 objDup rfl rfl rfl rfl (by decide)
